import Mathlib

/-!
Verification of the dose-accumulation and lineage-classification core of the
Modular2 repository, shallowly embedded in Lean 4.

Conventions of the embedding:
* `G4double` values are modelled as `ℚ` (the source never relies on
  floating-point rounding for the properties treated here); lengths are in cm
  and energies in MeV, matching the unit conversions performed at each use
  site in the source (`position.x()/cm`, `energyDeposit/MeV`, ...).
* Histogram arrays (`std::vector`) are modelled as total functions from bin
  indices; an update at one index is `Function.update` (1-D) or `upd2` (2-D).
* The polar angle handed to `SteppingAction::GetAngularBin` is carried in
  units of π (i.e. the field stores θ/π), so that the source's comparison
  `angle > CLHEP::pi` becomes `angle > 1` and the bin formula
  `angle / CLHEP::pi * fNAngularBins` becomes `angle * fNAngularBins`; this
  reparameterisation keeps all arithmetic inside `ℚ`.
* `CalculateRadius`/`CalculateAngle` apply a square root to the position, so
  their results are carried as the `radius`/`angle` coordinates of the step
  record (respectively as an explicit argument tied to the position by a
  hypothesis, for `BrachySteppingAction` where source radius and position are
  used side by side).
-/

namespace Modular2

/-- Update of a curried 2-D table at one cell, mirroring `v[i][j] = x` on a
`std::vector<std::vector<...>>`. -/
def upd2 {α : Type} (f : ℕ → ℕ → α) (i j : ℕ) (v : α) : ℕ → ℕ → α :=
  fun a b => if a = i ∧ b = j then v else f a b

/-- The Primary/Secondary verdict of the lineage classifier. -/
inductive Verdict where
  | Primary
  | Secondary
  deriving DecidableEq, Repr

/-! ## BrachySteppingAction (src/src/BrachySteppingAction.cc) -/

namespace Brachy

/-- Number of radial bins (`fNRadialBins = 90`). -/
def fNRadialBins : ℕ := 90

/-- Radial bin width in cm (`fRadialBinWidth = 0.05`). -/
def fRadialBinWidth : ℚ := 1/20

/-- Maximum radius in cm (`fMaxRadius = 4.5`). -/
def fMaxRadius : ℚ := 9/2

/-- Number of 2-D voxel bins per axis (`fN2DBins = 180`). -/
def fN2DBins : ℕ := 180

/-- Lower edge of the 2-D voxel map in cm (`f2DMin = -9.0`). -/
def f2DMin : ℚ := -9

/-- Upper edge of the 2-D voxel map in cm (`f2DMax = 9.0`). -/
def f2DMax : ℚ := 9

/-- 2-D voxel bin width in cm (`f2DBinWidth = 0.1`). -/
def f2DBinWidth : ℚ := 1/10

/-- The part of a `G4Track` read by `IsPrimaryContribution`: the parent track
id (used as the ancestry-depth proxy; non-negative in Geant4) and the
creator-process name (`nullptr` for source particles modelled as `none`). -/
structure Track where
  parentID : ℕ
  creatorProcess : Option String
  deriving DecidableEq, Repr

/-- `BrachySteppingAction::IsPrimaryContribution`, translated clause by
clause.  `parentID == 0` ⇒ primary; `parentID == 1` ⇒ primary (the inner
process test returns `true` and so does its fall-through); `parentID <= 5`
⇒ primary exactly for creator process `compt` or `phot`; otherwise
secondary. -/
def IsPrimaryContribution (track : Track) : Bool :=
  if track.parentID = 0 then
    true
  else if track.parentID = 1 then
    -- inner test: creator process in {compt, phot, conv, Rayl} returns true;
    -- the fall-through ("be conservative") also returns true
    (match track.creatorProcess with
     | some processName =>
         if processName = "compt" || processName = "phot" ||
            processName = "conv" || processName = "Rayl" then true
         else true
     | none => true)
  else if track.parentID ≤ 5 then
    (match track.creatorProcess with
     | some processName =>
         if processName = "compt" || processName = "phot" then true
         else false
     | none => false)
  else
    false

/-- The spec's `classify(ancestryDepth, creatorProcess) -> Verdict`, realised
in the source as the boolean `IsPrimaryContribution`. -/
def classify (track : Track) : Verdict :=
  if IsPrimaryContribution track then Verdict.Primary else Verdict.Secondary

/-- One transport-step record as read by
`BrachySteppingAction::UserSteppingAction`: total energy deposit (MeV),
pre-step position converted to cm (`x_cm`, `y_cm`, `z_cm`), the local
material density and step length (available on every `G4Step`; this scorer
does not read them), and the track data for classification. -/
structure StepRecord where
  edep : ℚ
  x : ℚ
  y : ℚ
  z : ℚ
  density : ℚ
  stepLength : ℚ
  track : Track
  deriving DecidableEq, Repr

/-- The accumulation state of `BrachySteppingAction`: the two radial dose
arrays and the two 2-D voxel maps, each separated by lineage. -/
structure State where
  fPrimaryRadialDose : ℕ → ℚ
  fSecondaryRadialDose : ℕ → ℚ
  fPrimary2DMap : ℕ → ℕ → ℚ
  fSecondary2DMap : ℕ → ℕ → ℚ

/-- Zero-initialized accumulation state (the constructor fills every array
with `0.0`). -/
def initState : State :=
  { fPrimaryRadialDose := fun _ => 0
    fSecondaryRadialDose := fun _ => 0
    fPrimary2DMap := fun _ _ => 0
    fSecondary2DMap := fun _ _ => 0 }

/-- The 2-D voxel-map block of `BrachySteppingAction::UserSteppingAction`
(the `GEANT4_SCORING_MODE` environment toggle is modelled as unset): for a
positive energy deposit, if `z_cm` passes the ±0.125 cm longitudinal window
and `(x_cm, y_cm)` lies in `[f2DMin, f2DMax)²`, the bin indices
`⌊(x_cm - f2DMin)/f2DBinWidth⌋` (a truncating `static_cast<G4int>`; the
operand is non-negative inside the range guard, so truncation is floor) are
bounds-checked and the raw `energyDeposit/MeV` is added to the primary or
secondary map according to `IsPrimaryContribution`. -/
def voxelDeposit (st : State) (r : StepRecord) : State :=
  if 0 < r.edep then
    if -(1/8 : ℚ) ≤ r.z ∧ r.z ≤ 1/8 then
      if f2DMin ≤ r.x ∧ r.x < f2DMax ∧ f2DMin ≤ r.y ∧ r.y < f2DMax then
        let x_bin : ℤ := ⌊(r.x - f2DMin) / f2DBinWidth⌋
        let y_bin : ℤ := ⌊(r.y - f2DMin) / f2DBinWidth⌋
        if 0 ≤ x_bin ∧ x_bin < (fN2DBins : ℤ) ∧ 0 ≤ y_bin ∧ y_bin < (fN2DBins : ℤ) then
          if IsPrimaryContribution r.track then
            { st with
                fPrimary2DMap :=
                  upd2 st.fPrimary2DMap x_bin.toNat y_bin.toNat
                    (st.fPrimary2DMap x_bin.toNat y_bin.toNat + r.edep) }
          else
            { st with
                fSecondary2DMap :=
                  upd2 st.fSecondary2DMap x_bin.toNat y_bin.toNat
                    (st.fSecondary2DMap x_bin.toNat y_bin.toNat + r.edep) }
        else st
      else st
    else st
  else st

/-- The radial block of `BrachySteppingAction::UserSteppingAction`.  The
source computes `radius = sqrt(x_cm² + y_cm²)` inline; the square root is not
rational, so `radius` is passed as an explicit argument and the theorems tie
it to the position by the hypothesis `radius ≥ 0 ∧ radius² = x² + y²`.  For a
positive energy deposit inside the same ±0.125 cm longitudinal window, if
`radius ≤ fMaxRadius` then the bin `⌊radius / fRadialBinWidth⌋` (truncating
cast of a non-negative operand) is checked against `fNRadialBins` and the raw
`energyDeposit/MeV` is added to the primary or secondary radial array. -/
def radialDeposit (st : State) (r : StepRecord) (radius : ℚ) : State :=
  if 0 < r.edep then
    if -(1/8 : ℚ) ≤ r.z ∧ r.z ≤ 1/8 then
      if radius ≤ fMaxRadius then
        let radialBin : ℤ := ⌊radius / fRadialBinWidth⌋
        if radialBin < (fNRadialBins : ℤ) then
          if IsPrimaryContribution r.track then
            { st with
                fPrimaryRadialDose :=
                  Function.update st.fPrimaryRadialDose radialBin.toNat
                    (st.fPrimaryRadialDose radialBin.toNat + r.edep) }
          else
            { st with
                fSecondaryRadialDose :=
                  Function.update st.fSecondaryRadialDose radialBin.toNat
                    (st.fSecondaryRadialDose radialBin.toNat + r.edep) }
        else st
      else st
    else st
  else st

end Brachy

/-! ## SteppingAction (src/src/SteppingAction.cc) -/

namespace SA

/-- Number of radial bins (constructor: `fNRadialBins(100)`). -/
def fNRadialBins : ℕ := 100

/-- Number of angular bins (constructor: `fNAngularBins(18)`). -/
def fNAngularBins : ℕ := 18

/-- Maximum radius, in cm (constructor: `fMaxRadius(15.0*cm)`). -/
def fMaxRadius : ℚ := 15

/-- The nominal cross-sectional area `1.0*mm*mm` used as the mass estimate's
area factor; `1` in Geant4 internal units (mm = 1). -/
def unitCrossSection : ℚ := 1

/-- One transport-step record as read by the `SteppingAction` scorers after
the scoring-volume filter: energy deposit, the results of
`CalculateRadius(position)` (= `position.mag()`) and
`CalculateAngle(position)` (= `position.theta()`, carried here in units of
π), the pre-step material density, the step length, and the parent track
id. -/
structure StepRecord where
  edep : ℚ
  radius : ℚ
  angle : ℚ
  density : ℚ
  stepLength : ℚ
  parentID : ℕ
  deriving DecidableEq, Repr

/-- The accumulation state of `SteppingAction`: radial and angular dose and
count arrays, each in total / primary / secondary channels. -/
structure State where
  fRadialDose : ℕ → ℚ
  fRadialCounts : ℕ → ℕ
  fRadialDosePrimary : ℕ → ℚ
  fRadialCountsPrimary : ℕ → ℕ
  fRadialDoseSecondary : ℕ → ℚ
  fRadialCountsSecondary : ℕ → ℕ
  fAngularDose : ℕ → ℕ → ℚ
  fAngularCounts : ℕ → ℕ → ℕ
  fAngularDosePrimary : ℕ → ℕ → ℚ
  fAngularCountsPrimary : ℕ → ℕ → ℕ
  fAngularDoseSecondary : ℕ → ℕ → ℚ
  fAngularCountsSecondary : ℕ → ℕ → ℕ

/-- Zero-initialized accumulation state (the constructor resizes every array
filled with zeros). -/
def initState : State :=
  { fRadialDose := fun _ => 0
    fRadialCounts := fun _ => 0
    fRadialDosePrimary := fun _ => 0
    fRadialCountsPrimary := fun _ => 0
    fRadialDoseSecondary := fun _ => 0
    fRadialCountsSecondary := fun _ => 0
    fAngularDose := fun _ _ => 0
    fAngularCounts := fun _ _ => 0
    fAngularDosePrimary := fun _ _ => 0
    fAngularCountsPrimary := fun _ _ => 0
    fAngularDoseSecondary := fun _ _ => 0
    fAngularCountsSecondary := fun _ _ => 0 }

/-- `SteppingAction::GetRadialBin`: `-1` for a radius outside
`[0, fMaxRadius]`, otherwise the truncating cast of
`radius / fMaxRadius * fNRadialBins` (non-negative here, so truncation is
floor). -/
def GetRadialBin (radius : ℚ) : ℤ :=
  if radius < 0 ∨ radius > fMaxRadius then -1
  else ⌊radius / fMaxRadius * (fNRadialBins : ℚ)⌋

/-- `SteppingAction::GetAngularBin` with the angle carried in units of π:
`-1` for an angle outside `[0, π]` (here `[0, 1]`), otherwise the truncating
cast of `angle / π * fNAngularBins` (here `angle * fNAngularBins`). -/
def GetAngularBin (angle : ℚ) : ℤ :=
  if angle < 0 ∨ angle > 1 then -1
  else ⌊angle * (fNAngularBins : ℚ)⌋

/-- `SteppingAction::ScoreDoseRadially(step, primary)` with
`primary: 1 = primary, 0 = secondary, -1 = total`: rejects a non-positive
energy deposit, bounds-checks the radial bin, forms the mass estimate
`density * (stepLength * 1.0*mm*mm)` and, when it is positive, adds
`edep / mass` to the dose array of the selected channel and bumps its
count. -/
def ScoreDoseRadially (st : State) (r : StepRecord) (primary : ℤ) : State :=
  if r.edep ≤ 0 then st else
  let bin : ℤ := GetRadialBin r.radius
  if 0 ≤ bin ∧ bin < (fNRadialBins : ℤ) then
    let volume : ℚ := r.stepLength * unitCrossSection
    let mass : ℚ := r.density * volume
    if 0 < mass then
      let dose : ℚ := r.edep / mass
      let i : ℕ := bin.toNat
      if primary = 1 then
        { st with
            fRadialDosePrimary :=
              Function.update st.fRadialDosePrimary i (st.fRadialDosePrimary i + dose)
            fRadialCountsPrimary :=
              Function.update st.fRadialCountsPrimary i (st.fRadialCountsPrimary i + 1) }
      else if primary = 0 then
        { st with
            fRadialDoseSecondary :=
              Function.update st.fRadialDoseSecondary i (st.fRadialDoseSecondary i + dose)
            fRadialCountsSecondary :=
              Function.update st.fRadialCountsSecondary i (st.fRadialCountsSecondary i + 1) }
      else
        { st with
            fRadialDose :=
              Function.update st.fRadialDose i (st.fRadialDose i + dose)
            fRadialCounts :=
              Function.update st.fRadialCounts i (st.fRadialCounts i + 1) }
    else st
  else st

/-- `SteppingAction::ScoreDoseAngularly(step, primary)`: same guards as the
radial scorer plus the angular-bin bounds check; adds `edep / mass` to the
2-D angular dose array of the selected channel and bumps its count. -/
def ScoreDoseAngularly (st : State) (r : StepRecord) (primary : ℤ) : State :=
  if r.edep ≤ 0 then st else
  let rBin : ℤ := GetRadialBin r.radius
  let aBin : ℤ := GetAngularBin r.angle
  if 0 ≤ rBin ∧ rBin < (fNRadialBins : ℤ) ∧ 0 ≤ aBin ∧ aBin < (fNAngularBins : ℤ) then
    let volume : ℚ := r.stepLength * unitCrossSection
    let mass : ℚ := r.density * volume
    if 0 < mass then
      let dose : ℚ := r.edep / mass
      let i : ℕ := rBin.toNat
      let j : ℕ := aBin.toNat
      if primary = 1 then
        { st with
            fAngularDosePrimary :=
              upd2 st.fAngularDosePrimary i j (st.fAngularDosePrimary i j + dose)
            fAngularCountsPrimary :=
              upd2 st.fAngularCountsPrimary i j (st.fAngularCountsPrimary i j + 1) }
      else if primary = 0 then
        { st with
            fAngularDoseSecondary :=
              upd2 st.fAngularDoseSecondary i j (st.fAngularDoseSecondary i j + dose)
            fAngularCountsSecondary :=
              upd2 st.fAngularCountsSecondary i j (st.fAngularCountsSecondary i j + 1) }
      else
        { st with
            fAngularDose :=
              upd2 st.fAngularDose i j (st.fAngularDose i j + dose)
            fAngularCounts :=
              upd2 st.fAngularCounts i j (st.fAngularCounts i j + 1) }
    else st
  else st

/-- The accumulation part of `SteppingAction::UserSteppingAction` for a step
that passed the scoring-volume filter: score the total channels, then score
the primary channel when `parentID == 0` and the secondary channel otherwise.
(The `AddEdep`/`ScoreDoseInVoxel` calls maintain scalar per-event totals
outside this histogram state and are not modelled.) -/
def UserSteppingAction (st : State) (r : StepRecord) : State :=
  let st1 := ScoreDoseRadially st r (-1)
  let st2 := ScoreDoseAngularly st1 r (-1)
  let flag : ℤ := if r.parentID = 0 then 1 else 0
  let st3 := ScoreDoseRadially st2 r flag
  ScoreDoseAngularly st3 r flag

/-- A whole run: fold `UserSteppingAction` over the in-scoring-volume step
records, starting from the zero-initialized state. -/
def processAll (rs : List StepRecord) : State :=
  rs.foldl UserSteppingAction initState

/-- The data rows written by `SteppingAction::ExportRadialDoseToFile` (after
the header line): for each bin `i` from `0` to `fNRadialBins - 1` in order,
the bin-center radius `(i + 0.5) * fMaxRadius / fNRadialBins` in cm, and the
dose and count of the selected channel. -/
def ExportRadialRows (st : State) (primary : Bool) : List (ℚ × ℚ × ℕ) :=
  (List.range fNRadialBins).map fun i : ℕ =>
    (((i : ℚ) + 1/2) * fMaxRadius / (fNRadialBins : ℚ),
     (if primary then st.fRadialDosePrimary i else st.fRadialDoseSecondary i),
     (if primary then st.fRadialCountsPrimary i else st.fRadialCountsSecondary i))

end SA

/-! ## Claims about the lineage classifier -/

/-- C1: For every record with ancestry depth 0, `classify` returns `Primary`,
regardless of the creator-process tag (including absent or unrecognized
tags). -/
theorem c1_depth0_always_primary (track : Brachy.Track) (h : track.parentID = 0) :
    Brachy.classify track = Verdict.Primary := by
  simp [Brachy.classify, Brachy.IsPrimaryContribution, h]

/-- Witness for C1 at depth 0 with an unrecognized creator-process tag. -/
theorem c1_depth0_always_primary_witness :
    (Brachy.Track.mk 0 (some "msc")).parentID = 0 ∧
      Brachy.classify (Brachy.Track.mk 0 (some "msc")) = Verdict.Primary :=
  ⟨rfl, c1_depth0_always_primary (Brachy.Track.mk 0 (some "msc")) rfl⟩

/-- C2: For every record with ancestry depth at least 2, `classify` returns
`Primary` if and only if the depth is at most 5 and the creator process is
Compton scattering (`"compt"`) or photoelectric (`"phot"`); in particular
depth > 5 gives `Secondary`, and depth 2–5 with any other or absent creator
process gives `Secondary`. -/
theorem c2_depth_ge2_primary_iff (track : Brachy.Track) (h : 2 ≤ track.parentID) :
    Brachy.classify track = Verdict.Primary ↔
      track.parentID ≤ 5 ∧
        (track.creatorProcess = some "compt" ∨ track.creatorProcess = some "phot") := by
  obtain ⟨pid, proc⟩ := track
  simp only at h
  have h0 : pid ≠ 0 := by omega
  have h1 : pid ≠ 1 := by omega
  simp only [Brachy.classify, Brachy.IsPrimaryContribution, h0, h1, if_false]
  by_cases h5 : pid ≤ 5
  · cases proc with
    | none => simp [h5]
    | some p =>
        by_cases hc : p = "compt"
        · simp [h5, hc]
        · by_cases hp : p = "phot"
          · simp [h5, hp]
          · simp [h5, hc, hp]
  · simp [h5]

/-- Witness for C2 at depth 3 with creator process `"compt"`. -/
theorem c2_depth_ge2_primary_iff_witness :
    2 ≤ (Brachy.Track.mk 3 (some "compt")).parentID ∧
      (Brachy.classify (Brachy.Track.mk 3 (some "compt")) = Verdict.Primary ↔
        (Brachy.Track.mk 3 (some "compt")).parentID ≤ 5 ∧
          ((Brachy.Track.mk 3 (some "compt")).creatorProcess = some "compt" ∨
            (Brachy.Track.mk 3 (some "compt")).creatorProcess = some "phot")) :=
  ⟨by decide, c2_depth_ge2_primary_iff (Brachy.Track.mk 3 (some "compt")) (by decide)⟩

/-- C9: For every record with ancestry depth exactly 1, `classify` returns
`Primary` for every creator process whatsoever — the listed processes, any
other known process (e.g. `"msc"` or `"eIoni"`), and the unknown-process
case alike. -/
theorem c9_depth1_always_primary (track : Brachy.Track) (h : track.parentID = 1) :
    Brachy.classify track = Verdict.Primary := by
  obtain ⟨pid, proc⟩ := track
  simp only at h
  subst h
  cases proc with
  | none => simp [Brachy.classify, Brachy.IsPrimaryContribution]
  | some p =>
      simp only [Brachy.classify, Brachy.IsPrimaryContribution]
      by_cases hc : p = "compt" || p = "phot" || p = "conv" || p = "Rayl" <;> simp [hc]

/-- Witness for C9 at depth 1 with the multiple-scattering creator process,
which is outside the listed process set. -/
theorem c9_depth1_always_primary_witness :
    (Brachy.Track.mk 1 (some "msc")).parentID = 1 ∧
      Brachy.classify (Brachy.Track.mk 1 (some "msc")) = Verdict.Primary :=
  ⟨rfl, c9_depth1_always_primary (Brachy.Track.mk 1 (some "msc")) rfl⟩

/-! ## Helper lemmas about the radial binning -/

/-- At `radius = fMaxRadius` the bin formula evaluates to `fNRadialBins`. -/
theorem getRadialBin_at_max : SA.GetRadialBin SA.fMaxRadius = (SA.fNRadialBins : ℤ) := by
  unfold SA.GetRadialBin SA.fMaxRadius SA.fNRadialBins
  norm_num

/-- The radial scorer is the identity whenever the radial bin fails its
bounds check. -/
theorem scoreDoseRadially_noop_of_bin_out (st : SA.State) (r : SA.StepRecord) (p : ℤ)
    (hbin : ¬ (0 ≤ SA.GetRadialBin r.radius ∧ SA.GetRadialBin r.radius < (SA.fNRadialBins : ℤ))) :
    SA.ScoreDoseRadially st r p = st := by
  simp [SA.ScoreDoseRadially, hbin]

/-- For `0 ≤ radius < fMaxRadius` the bin formula lands inside
`[0, fNRadialBins)`. -/
theorem getRadialBin_in_range (radius : ℚ) (h0 : 0 ≤ radius) (h1 : radius < SA.fMaxRadius) :
    SA.GetRadialBin radius = ⌊radius / SA.fMaxRadius * (SA.fNRadialBins : ℚ)⌋ ∧
      0 ≤ SA.GetRadialBin radius ∧ SA.GetRadialBin radius < (SA.fNRadialBins : ℤ) := by
  have hnot : ¬ (radius < 0 ∨ radius > SA.fMaxRadius) :=
    not_or.mpr ⟨not_lt.mpr h0, not_lt.mpr h1.le⟩
  have heq : SA.GetRadialBin radius = ⌊radius / SA.fMaxRadius * (SA.fNRadialBins : ℚ)⌋ := by
    unfold SA.GetRadialBin
    rw [if_neg hnot]
  have hq0 : 0 ≤ radius / SA.fMaxRadius * (SA.fNRadialBins : ℚ) := by
    have : (0 : ℚ) ≤ radius / SA.fMaxRadius :=
      div_nonneg h0 (by norm_num [SA.fMaxRadius])
    positivity
  have hq1 : radius / SA.fMaxRadius * (SA.fNRadialBins : ℚ) < ((SA.fNRadialBins : ℤ) : ℚ) := by
    unfold SA.fMaxRadius at h1 ⊢
    unfold SA.fNRadialBins
    rw [div_mul_eq_mul_div, div_lt_iff₀ (by norm_num : (0 : ℚ) < 15)]
    push_cast
    linarith
  exact ⟨heq, heq ▸ Int.floor_nonneg.mpr hq0, heq ▸ Int.floor_lt.mpr hq1⟩

/-- A coordinate inside `[f2DMin, f2DMax)` produces a voxel bin index inside
`[0, fN2DBins)`. -/
theorem voxelBin_in_range (x : ℚ) (h0 : Brachy.f2DMin ≤ x) (h1 : x < Brachy.f2DMax) :
    0 ≤ ⌊(x - Brachy.f2DMin) / Brachy.f2DBinWidth⌋ ∧
      ⌊(x - Brachy.f2DMin) / Brachy.f2DBinWidth⌋ < (Brachy.fN2DBins : ℤ) := by
  unfold Brachy.f2DMin Brachy.f2DMax Brachy.f2DBinWidth Brachy.fN2DBins at *
  constructor
  · exact Int.floor_nonneg.mpr (div_nonneg (by linarith) (by norm_num))
  · apply Int.floor_lt.mpr
    rw [div_lt_iff₀ (by norm_num)]
    push_cast
    linarith

/-! ## Channel-separation lemmas for the SteppingAction scorers -/

/-- The angular scorer never touches the radial total-count array. -/
theorem angular_keeps_radialCounts (st : SA.State) (r : SA.StepRecord) (p : ℤ) :
    (SA.ScoreDoseAngularly st r p).fRadialCounts = st.fRadialCounts := by
  simp only [SA.ScoreDoseAngularly]
  split_ifs <;> rfl

/-- The angular scorer never touches the radial primary-count array. -/
theorem angular_keeps_radialCountsPrimary (st : SA.State) (r : SA.StepRecord) (p : ℤ) :
    (SA.ScoreDoseAngularly st r p).fRadialCountsPrimary = st.fRadialCountsPrimary := by
  simp only [SA.ScoreDoseAngularly]
  split_ifs <;> rfl

/-- The angular scorer never touches the radial secondary-count array. -/
theorem angular_keeps_radialCountsSecondary (st : SA.State) (r : SA.StepRecord) (p : ℤ) :
    (SA.ScoreDoseAngularly st r p).fRadialCountsSecondary = st.fRadialCountsSecondary := by
  simp only [SA.ScoreDoseAngularly]
  split_ifs <;> rfl

/-- The radial scorer never touches the angular total-count array. -/
theorem radial_keeps_angularCounts (st : SA.State) (r : SA.StepRecord) (p : ℤ) :
    (SA.ScoreDoseRadially st r p).fAngularCounts = st.fAngularCounts := by
  simp only [SA.ScoreDoseRadially]
  split_ifs <;> rfl

/-- The radial scorer never touches the angular primary-count array. -/
theorem radial_keeps_angularCountsPrimary (st : SA.State) (r : SA.StepRecord) (p : ℤ) :
    (SA.ScoreDoseRadially st r p).fAngularCountsPrimary = st.fAngularCountsPrimary := by
  simp only [SA.ScoreDoseRadially]
  split_ifs <;> rfl

/-- The radial scorer never touches the angular secondary-count array. -/
theorem radial_keeps_angularCountsSecondary (st : SA.State) (r : SA.StepRecord) (p : ℤ) :
    (SA.ScoreDoseRadially st r p).fAngularCountsSecondary = st.fAngularCountsSecondary := by
  simp only [SA.ScoreDoseRadially]
  split_ifs <;> rfl

/-- One processed record preserves `total = primary + secondary` for the
radial counts: the total-channel call and the classified call run the same
guards on the same record, so they bump the same bin or neither bumps. -/
theorem userStep_radial_inv (st : SA.State) (r : SA.StepRecord) (i : ℕ)
    (h : st.fRadialCounts i = st.fRadialCountsPrimary i + st.fRadialCountsSecondary i) :
    (SA.UserSteppingAction st r).fRadialCounts i =
      (SA.UserSteppingAction st r).fRadialCountsPrimary i +
        (SA.UserSteppingAction st r).fRadialCountsSecondary i := by
  simp only [SA.UserSteppingAction]
  by_cases h1 : r.edep ≤ 0
  · simp [SA.ScoreDoseRadially, h1, h, angular_keeps_radialCounts,
      angular_keeps_radialCountsPrimary, angular_keeps_radialCountsSecondary]
  · by_cases h2 : 0 ≤ SA.GetRadialBin r.radius ∧ SA.GetRadialBin r.radius < (SA.fNRadialBins : ℤ)
    · by_cases h3 : 0 < r.density * (r.stepLength * SA.unitCrossSection)
      · by_cases hpid : r.parentID = 0 <;>
          by_cases hi : i = (SA.GetRadialBin r.radius).toNat <;>
          first
          | (subst hi
             simp [SA.ScoreDoseRadially, h1, h2.1, h2.2, h3, hpid, Function.update,
               angular_keeps_radialCounts, angular_keeps_radialCountsPrimary,
               angular_keeps_radialCountsSecondary]
             omega)
          | simp [SA.ScoreDoseRadially, h1, h2.1, h2.2, h3, hpid, hi, Function.update, h,
              angular_keeps_radialCounts, angular_keeps_radialCountsPrimary,
              angular_keeps_radialCountsSecondary]
      · simp [SA.ScoreDoseRadially, h1, h2.1, h2.2, h3, h, angular_keeps_radialCounts,
          angular_keeps_radialCountsPrimary, angular_keeps_radialCountsSecondary]
    · have hnoop : ∀ s q, (SA.ScoreDoseRadially s r q).fRadialCounts = s.fRadialCounts ∧
          (SA.ScoreDoseRadially s r q).fRadialCountsPrimary = s.fRadialCountsPrimary ∧
          (SA.ScoreDoseRadially s r q).fRadialCountsSecondary = s.fRadialCountsSecondary := by
        intro s q
        simp only [SA.ScoreDoseRadially]
        rw [if_neg h1, if_neg h2]
        exact ⟨rfl, rfl, rfl⟩
      simp [hnoop, h, angular_keeps_radialCounts, angular_keeps_radialCountsPrimary,
        angular_keeps_radialCountsSecondary]

/-- One processed record preserves `total = primary + secondary` for the
angular counts. -/
theorem userStep_angular_inv (st : SA.State) (r : SA.StepRecord) (i j : ℕ)
    (h : st.fAngularCounts i j =
      st.fAngularCountsPrimary i j + st.fAngularCountsSecondary i j) :
    (SA.UserSteppingAction st r).fAngularCounts i j =
      (SA.UserSteppingAction st r).fAngularCountsPrimary i j +
        (SA.UserSteppingAction st r).fAngularCountsSecondary i j := by
  simp only [SA.UserSteppingAction]
  by_cases h1 : r.edep ≤ 0
  · simp [SA.ScoreDoseAngularly, h1, h, radial_keeps_angularCounts,
      radial_keeps_angularCountsPrimary, radial_keeps_angularCountsSecondary]
  · by_cases h2 : 0 ≤ SA.GetRadialBin r.radius ∧ SA.GetRadialBin r.radius < (SA.fNRadialBins : ℤ) ∧
        0 ≤ SA.GetAngularBin r.angle ∧ SA.GetAngularBin r.angle < (SA.fNAngularBins : ℤ)
    · by_cases h3 : 0 < r.density * (r.stepLength * SA.unitCrossSection)
      · by_cases hpid : r.parentID = 0 <;>
          by_cases hij : i = (SA.GetRadialBin r.radius).toNat ∧
            j = (SA.GetAngularBin r.angle).toNat <;>
          first
          | (obtain ⟨hi, hj⟩ := hij
             subst hi
             subst hj
             simp [SA.ScoreDoseAngularly, h1, h2.1, h2.2.1, h2.2.2.1, h2.2.2.2, h3, hpid,
               Modular2.upd2, radial_keeps_angularCounts,
               radial_keeps_angularCountsPrimary, radial_keeps_angularCountsSecondary]
             omega)
          | simp [SA.ScoreDoseAngularly, h1, h2.1, h2.2.1, h2.2.2.1, h2.2.2.2, h3, hpid, hij,
              Modular2.upd2, h, radial_keeps_angularCounts,
              radial_keeps_angularCountsPrimary, radial_keeps_angularCountsSecondary]
      · simp [SA.ScoreDoseAngularly, h1, h2.1, h2.2.1, h2.2.2.1, h2.2.2.2, h3, h,
          radial_keeps_angularCounts, radial_keeps_angularCountsPrimary,
          radial_keeps_angularCountsSecondary]
    · have hnoop : ∀ s q, (SA.ScoreDoseAngularly s r q).fAngularCounts = s.fAngularCounts ∧
          (SA.ScoreDoseAngularly s r q).fAngularCountsPrimary = s.fAngularCountsPrimary ∧
          (SA.ScoreDoseAngularly s r q).fAngularCountsSecondary = s.fAngularCountsSecondary := by
        intro s q
        simp only [SA.ScoreDoseAngularly]
        rw [if_neg h1, if_neg h2]
        exact ⟨rfl, rfl, rfl⟩
      simp [hnoop, h, radial_keeps_angularCounts, radial_keeps_angularCountsPrimary,
        radial_keeps_angularCountsSecondary]

/-- C3: For any sequence of deposits processed in the scoring volume, within
each projection (radial and angular) the Total channel's count equals the
Primary channel's count plus the Secondary channel's count at every bin:
each accepted deposit is counted in Total and in exactly one of Primary or
Secondary. -/
theorem c3_total_counts_eq_primary_plus_secondary (rs : List SA.StepRecord) :
    (∀ i, (SA.processAll rs).fRadialCounts i =
        (SA.processAll rs).fRadialCountsPrimary i +
          (SA.processAll rs).fRadialCountsSecondary i) ∧
      ∀ i j, (SA.processAll rs).fAngularCounts i j =
        (SA.processAll rs).fAngularCountsPrimary i j +
          (SA.processAll rs).fAngularCountsSecondary i j := by
  have key : ∀ (l : List SA.StepRecord) (st : SA.State),
      (∀ i, st.fRadialCounts i = st.fRadialCountsPrimary i + st.fRadialCountsSecondary i) →
      (∀ i j, st.fAngularCounts i j =
        st.fAngularCountsPrimary i j + st.fAngularCountsSecondary i j) →
      (∀ i, (l.foldl SA.UserSteppingAction st).fRadialCounts i =
          (l.foldl SA.UserSteppingAction st).fRadialCountsPrimary i +
            (l.foldl SA.UserSteppingAction st).fRadialCountsSecondary i) ∧
        ∀ i j, (l.foldl SA.UserSteppingAction st).fAngularCounts i j =
          (l.foldl SA.UserSteppingAction st).fAngularCountsPrimary i j +
            (l.foldl SA.UserSteppingAction st).fAngularCountsSecondary i j := by
    intro l
    induction l with
    | nil =>
        intro st h1 h2
        exact ⟨h1, h2⟩
    | cons r l ih =>
        intro st h1 h2
        simp only [List.foldl_cons]
        exact ih _ (fun i => userStep_radial_inv st r i (h1 i))
          (fun i j => userStep_angular_inv st r i j (h2 i j))
  exact key rs SA.initState (fun _ => rfl) (fun _ _ => rfl)

/-! ## Claims about the deposit guards and export -/

/-- C6: A record with non-positive energy deposit leaves every channel of
every projection unchanged: the whole `SteppingAction` accumulation step and
both `BrachySteppingAction` accumulation blocks return the state they were
given. -/
theorem c6_nonpositive_edep_noop (st : SA.State) (r : SA.StepRecord)
    (bst : Brachy.State) (b : Brachy.StepRecord) (radius : ℚ)
    (hr : r.edep ≤ 0) (hb : b.edep ≤ 0) :
    SA.UserSteppingAction st r = st ∧
      Brachy.voxelDeposit bst b = bst ∧
      Brachy.radialDeposit bst b radius = bst := by
  refine ⟨?_, ?_, ?_⟩
  · simp [SA.UserSteppingAction, SA.ScoreDoseRadially, SA.ScoreDoseAngularly, hr]
  · simp [Brachy.voxelDeposit, not_lt.mpr hb]
  · simp [Brachy.radialDeposit, not_lt.mpr hb]

/-- Witness for C6: a zero-energy record deposited on the zero-initialized
states changes nothing. -/
theorem c6_nonpositive_edep_noop_witness :
    (SA.StepRecord.mk 0 1 0 1 1 0).edep ≤ 0 ∧
      (Brachy.StepRecord.mk 0 1 0 0 1 1 (Brachy.Track.mk 0 none)).edep ≤ 0 ∧
      (SA.UserSteppingAction SA.initState (SA.StepRecord.mk 0 1 0 1 1 0) = SA.initState ∧
        Brachy.voxelDeposit Brachy.initState
            (Brachy.StepRecord.mk 0 1 0 0 1 1 (Brachy.Track.mk 0 none)) = Brachy.initState ∧
        Brachy.radialDeposit Brachy.initState
            (Brachy.StepRecord.mk 0 1 0 0 1 1 (Brachy.Track.mk 0 none)) 1 = Brachy.initState) :=
  ⟨by decide, by decide,
    c6_nonpositive_edep_noop SA.initState (SA.StepRecord.mk 0 1 0 1 1 0)
      Brachy.initState (Brachy.StepRecord.mk 0 1 0 0 1 1 (Brachy.Track.mk 0 none)) 1
      (by decide) (by decide)⟩

/-- C10: For a record with positive energy deposit whose mass estimate
`density × stepLength × unitCrossSection` is not positive (e.g. a zero step
length), the radial and angular scorers leave all channels unchanged: the
`mass > 0` guard precedes the division defining the dose. -/
theorem c10_nonpositive_mass_noop (st : SA.State) (r : SA.StepRecord) (p : ℤ)
    (he : 0 < r.edep)
    (hm : r.density * r.stepLength * SA.unitCrossSection ≤ 0) :
    SA.ScoreDoseRadially st r p = st ∧ SA.ScoreDoseAngularly st r p = st := by
  have he' : ¬ r.edep ≤ 0 := not_le.mpr he
  have hm' : ¬ (0 < r.density * (r.stepLength * SA.unitCrossSection)) := by
    rw [← mul_assoc]
    exact not_lt.mpr hm
  constructor
  · simp [SA.ScoreDoseRadially, he', hm']
  · simp [SA.ScoreDoseAngularly, he', hm']

/-- Witness for C10: a unit deposit with zero step length (zero mass
estimate) changes neither the radial nor the angular state. -/
theorem c10_nonpositive_mass_noop_witness :
    0 < (SA.StepRecord.mk 1 1 0 1 0 0).edep ∧
      (SA.StepRecord.mk 1 1 0 1 0 0).density * (SA.StepRecord.mk 1 1 0 1 0 0).stepLength *
          SA.unitCrossSection ≤ 0 ∧
      (SA.ScoreDoseRadially SA.initState (SA.StepRecord.mk 1 1 0 1 0 0) (-1) = SA.initState ∧
        SA.ScoreDoseAngularly SA.initState (SA.StepRecord.mk 1 1 0 1 0 0) (-1) = SA.initState) :=
  ⟨by norm_num, by norm_num [SA.unitCrossSection],
    c10_nonpositive_mass_noop SA.initState (SA.StepRecord.mk 1 1 0 1 0 0) (-1)
      (by norm_num) (by norm_num [SA.unitCrossSection])⟩

/-- C5 is refuted at the upper boundary: `radius = fMaxRadius` lies inside
the claim's validity range `0 ≤ radius ≤ maxRadius` and the bin formula
indeed yields `⌊radius / maxRadius * nRadialBins⌋`, but that value is
`fNRadialBins` itself, the scorer's `bin < fNRadialBins` check fails, and an
otherwise-valid deposit (positive energy and mass) is NOT included in the
radial projection: the state is returned unchanged. -/
theorem c5_boundary_counterexample :
    (0 ≤ (15 : ℚ) ∧ (15 : ℚ) ≤ SA.fMaxRadius) ∧
      SA.GetRadialBin 15 = ⌊(15 : ℚ) / SA.fMaxRadius * (SA.fNRadialBins : ℚ)⌋ ∧
      SA.GetRadialBin 15 = (SA.fNRadialBins : ℤ) ∧
      0 < (SA.StepRecord.mk 1 15 0 1 1 0).edep ∧
      0 < (SA.StepRecord.mk 1 15 0 1 1 0).density *
            (SA.StepRecord.mk 1 15 0 1 1 0).stepLength * SA.unitCrossSection ∧
      SA.ScoreDoseRadially SA.initState (SA.StepRecord.mk 1 15 0 1 1 0) (-1) = SA.initState := by
  have hmax : SA.GetRadialBin 15 = (SA.fNRadialBins : ℤ) := getRadialBin_at_max
  refine ⟨⟨by norm_num, by norm_num [SA.fMaxRadius]⟩, ?_, hmax, by norm_num,
    by norm_num [SA.unitCrossSection], ?_⟩
  · rw [hmax]
    norm_num [SA.fMaxRadius, SA.fNRadialBins]
  · exact scoreDoseRadially_noop_of_bin_out _ _ _ (by rw [hmax]; norm_num)

/-- C5 (amended): for an otherwise-valid deposit (positive energy deposit
and positive mass estimate): a radius in `[0, maxRadius)` is assigned the
bin `⌊radius / maxRadius * nRadialBins⌋` and the deposit is counted in that
bin of the radial projection; a radius outside `[0, maxRadius]` gets no bin
(`-1`) and the radial state is unchanged; at `radius = maxRadius` the
formula yields `nRadialBins`, which fails the bounds check, and the deposit
is likewise excluded from the radial projection. -/
theorem c5_amended_radial_binning (st : SA.State) (r : SA.StepRecord)
    (he : 0 < r.edep)
    (hm : 0 < r.density * r.stepLength * SA.unitCrossSection) :
    (0 ≤ r.radius ∧ r.radius < SA.fMaxRadius →
        SA.GetRadialBin r.radius = ⌊r.radius / SA.fMaxRadius * (SA.fNRadialBins : ℚ)⌋ ∧
        (SA.ScoreDoseRadially st r (-1)).fRadialCounts (SA.GetRadialBin r.radius).toNat =
          st.fRadialCounts (SA.GetRadialBin r.radius).toNat + 1) ∧
      (r.radius < 0 ∨ SA.fMaxRadius < r.radius →
        SA.GetRadialBin r.radius = -1 ∧ SA.ScoreDoseRadially st r (-1) = st) ∧
      (r.radius = SA.fMaxRadius →
        SA.GetRadialBin r.radius = (SA.fNRadialBins : ℤ) ∧
        SA.ScoreDoseRadially st r (-1) = st) := by
  have he' : ¬ r.edep ≤ 0 := not_le.mpr he
  have hm' : 0 < r.density * (r.stepLength * SA.unitCrossSection) := by
    rw [← mul_assoc]
    exact hm
  refine ⟨?_, ?_, ?_⟩
  · rintro ⟨h0, h1⟩
    obtain ⟨heq, hlb, hub⟩ := getRadialBin_in_range r.radius h0 h1
    refine ⟨heq, ?_⟩
    simp [SA.ScoreDoseRadially, he', hlb, hub, hm']
  · intro h
    have hbin : SA.GetRadialBin r.radius = -1 := by
      unfold SA.GetRadialBin
      rw [if_pos h]
    refine ⟨hbin, scoreDoseRadially_noop_of_bin_out _ _ _ ?_⟩
    rw [hbin]
    norm_num
  · intro h
    have hbin : SA.GetRadialBin r.radius = (SA.fNRadialBins : ℤ) := by
      rw [h]
      exact getRadialBin_at_max
    refine ⟨hbin, scoreDoseRadially_noop_of_bin_out _ _ _ ?_⟩
    rw [hbin]
    norm_num

/-- Witness for the amended C5 at radius 2 cm with unit energy, density and
step length. -/
theorem c5_amended_radial_binning_witness :
    0 < (SA.StepRecord.mk 1 2 0 1 1 0).edep ∧
      0 < (SA.StepRecord.mk 1 2 0 1 1 0).density *
            (SA.StepRecord.mk 1 2 0 1 1 0).stepLength * SA.unitCrossSection ∧
      ((0 ≤ (SA.StepRecord.mk 1 2 0 1 1 0).radius ∧
          (SA.StepRecord.mk 1 2 0 1 1 0).radius < SA.fMaxRadius →
          SA.GetRadialBin (SA.StepRecord.mk 1 2 0 1 1 0).radius =
            ⌊(SA.StepRecord.mk 1 2 0 1 1 0).radius / SA.fMaxRadius * (SA.fNRadialBins : ℚ)⌋ ∧
          (SA.ScoreDoseRadially SA.initState (SA.StepRecord.mk 1 2 0 1 1 0)
              (-1)).fRadialCounts (SA.GetRadialBin (SA.StepRecord.mk 1 2 0 1 1 0).radius).toNat =
            SA.initState.fRadialCounts
                (SA.GetRadialBin (SA.StepRecord.mk 1 2 0 1 1 0).radius).toNat + 1) ∧
        ((SA.StepRecord.mk 1 2 0 1 1 0).radius < 0 ∨
            SA.fMaxRadius < (SA.StepRecord.mk 1 2 0 1 1 0).radius →
          SA.GetRadialBin (SA.StepRecord.mk 1 2 0 1 1 0).radius = -1 ∧
          SA.ScoreDoseRadially SA.initState (SA.StepRecord.mk 1 2 0 1 1 0) (-1) = SA.initState) ∧
        ((SA.StepRecord.mk 1 2 0 1 1 0).radius = SA.fMaxRadius →
          SA.GetRadialBin (SA.StepRecord.mk 1 2 0 1 1 0).radius = (SA.fNRadialBins : ℤ) ∧
          SA.ScoreDoseRadially SA.initState (SA.StepRecord.mk 1 2 0 1 1 0) (-1) = SA.initState)) :=
  ⟨by norm_num, by norm_num [SA.unitCrossSection],
    c5_amended_radial_binning SA.initState (SA.StepRecord.mk 1 2 0 1 1 0)
      (by norm_num) (by norm_num [SA.unitCrossSection])⟩

/-- C7: A record whose radius `sqrt(x² + y²)` exceeds the radial range while
its Cartesian position and longitudinal coordinate pass the voxel grid's
bounds is dropped by the radial block but still accumulated by the voxel
block (primary and secondary maps together gaining exactly the deposited
energy at its cell): being out of range in one projection neither affects
the other projection nor aborts processing. -/
theorem c7_radial_overflow_voxel_still_counted (st : Brachy.State) (r : Brachy.StepRecord)
    (radius : ℚ)
    (he : 0 < r.edep)
    (_hrad : radius * radius = r.x ^ 2 + r.y ^ 2) (_hr0 : 0 ≤ radius)
    (hout : Brachy.fMaxRadius < radius)
    (hz : -(1/8 : ℚ) ≤ r.z ∧ r.z ≤ 1/8)
    (hx : Brachy.f2DMin ≤ r.x ∧ r.x < Brachy.f2DMax)
    (hy : Brachy.f2DMin ≤ r.y ∧ r.y < Brachy.f2DMax) :
    Brachy.radialDeposit st r radius = st ∧
      (Brachy.voxelDeposit st r).fPrimary2DMap
          (⌊(r.x - Brachy.f2DMin) / Brachy.f2DBinWidth⌋).toNat
          (⌊(r.y - Brachy.f2DMin) / Brachy.f2DBinWidth⌋).toNat +
        (Brachy.voxelDeposit st r).fSecondary2DMap
          (⌊(r.x - Brachy.f2DMin) / Brachy.f2DBinWidth⌋).toNat
          (⌊(r.y - Brachy.f2DMin) / Brachy.f2DBinWidth⌋).toNat =
        st.fPrimary2DMap
            (⌊(r.x - Brachy.f2DMin) / Brachy.f2DBinWidth⌋).toNat
            (⌊(r.y - Brachy.f2DMin) / Brachy.f2DBinWidth⌋).toNat +
          st.fSecondary2DMap
            (⌊(r.x - Brachy.f2DMin) / Brachy.f2DBinWidth⌋).toNat
            (⌊(r.y - Brachy.f2DMin) / Brachy.f2DBinWidth⌋).toNat + r.edep := by
  obtain ⟨hxb0, hxb1⟩ := voxelBin_in_range r.x hx.1 hx.2
  obtain ⟨hyb0, hyb1⟩ := voxelBin_in_range r.y hy.1 hy.2
  have hz1 : (-1 / 8 : ℚ) ≤ r.z := by linarith [hz.1]
  constructor
  · simp [Brachy.radialDeposit, not_le.mpr hout]
  · by_cases hp : Brachy.IsPrimaryContribution r.track
    · simp [Brachy.voxelDeposit, he, hx.1, hx.2, hy.1, hy.2,
        hxb0, hxb1, hyb0, hyb1, hp]
      split_ifs with hcond
      · simp [Modular2.upd2]
        ring
      · exact absurd ⟨by linarith [hz.1], by linarith [hz.2]⟩ hcond
    · simp [Brachy.voxelDeposit, he, hx.1, hx.2, hy.1, hy.2,
        hxb0, hxb1, hyb0, hyb1, hp]
      split_ifs with hcond
      · simp [Modular2.upd2]
        ring
      · exact absurd ⟨by linarith [hz.1], by linarith [hz.2]⟩ hcond

/-- Witness for C7: a unit deposit at `(x, y) = (4.6, 0)` cm, radius 4.6 cm,
just outside the 4.5 cm radial range but inside the voxel grid. -/
theorem c7_radial_overflow_voxel_still_counted_witness :
    0 < (Brachy.StepRecord.mk 1 (23/5) 0 0 1 1 (Brachy.Track.mk 0 none)).edep ∧
      (23/5 : ℚ) * (23/5) =
        (Brachy.StepRecord.mk 1 (23/5) 0 0 1 1 (Brachy.Track.mk 0 none)).x ^ 2 +
          (Brachy.StepRecord.mk 1 (23/5) 0 0 1 1 (Brachy.Track.mk 0 none)).y ^ 2 ∧
      Brachy.fMaxRadius < (23/5 : ℚ) ∧
      (Brachy.radialDeposit Brachy.initState
          (Brachy.StepRecord.mk 1 (23/5) 0 0 1 1 (Brachy.Track.mk 0 none)) (23/5) =
            Brachy.initState ∧
        (Brachy.voxelDeposit Brachy.initState
              (Brachy.StepRecord.mk 1 (23/5) 0 0 1 1 (Brachy.Track.mk 0 none))).fPrimary2DMap
            (⌊((Brachy.StepRecord.mk 1 (23/5) 0 0 1 1 (Brachy.Track.mk 0 none)).x -
                Brachy.f2DMin) / Brachy.f2DBinWidth⌋).toNat
            (⌊((Brachy.StepRecord.mk 1 (23/5) 0 0 1 1 (Brachy.Track.mk 0 none)).y -
                Brachy.f2DMin) / Brachy.f2DBinWidth⌋).toNat +
          (Brachy.voxelDeposit Brachy.initState
              (Brachy.StepRecord.mk 1 (23/5) 0 0 1 1 (Brachy.Track.mk 0 none))).fSecondary2DMap
            (⌊((Brachy.StepRecord.mk 1 (23/5) 0 0 1 1 (Brachy.Track.mk 0 none)).x -
                Brachy.f2DMin) / Brachy.f2DBinWidth⌋).toNat
            (⌊((Brachy.StepRecord.mk 1 (23/5) 0 0 1 1 (Brachy.Track.mk 0 none)).y -
                Brachy.f2DMin) / Brachy.f2DBinWidth⌋).toNat =
          Brachy.initState.fPrimary2DMap
              (⌊((Brachy.StepRecord.mk 1 (23/5) 0 0 1 1 (Brachy.Track.mk 0 none)).x -
                  Brachy.f2DMin) / Brachy.f2DBinWidth⌋).toNat
              (⌊((Brachy.StepRecord.mk 1 (23/5) 0 0 1 1 (Brachy.Track.mk 0 none)).y -
                  Brachy.f2DMin) / Brachy.f2DBinWidth⌋).toNat +
            Brachy.initState.fSecondary2DMap
              (⌊((Brachy.StepRecord.mk 1 (23/5) 0 0 1 1 (Brachy.Track.mk 0 none)).x -
                  Brachy.f2DMin) / Brachy.f2DBinWidth⌋).toNat
              (⌊((Brachy.StepRecord.mk 1 (23/5) 0 0 1 1 (Brachy.Track.mk 0 none)).y -
                  Brachy.f2DMin) / Brachy.f2DBinWidth⌋).toNat +
            (Brachy.StepRecord.mk 1 (23/5) 0 0 1 1 (Brachy.Track.mk 0 none)).edep) :=
  ⟨by norm_num, by norm_num, by norm_num [Brachy.fMaxRadius],
    c7_radial_overflow_voxel_still_counted Brachy.initState
      (Brachy.StepRecord.mk 1 (23/5) 0 0 1 1 (Brachy.Track.mk 0 none)) (23/5)
      (by norm_num) (by norm_num) (by norm_num) (by norm_num [Brachy.fMaxRadius])
      (by norm_num) (by norm_num [Brachy.f2DMin, Brachy.f2DMax])
      (by norm_num [Brachy.f2DMin, Brachy.f2DMax])⟩

/-- C4 is refuted on the `BrachySteppingAction` radial projection (cited by
the claim): a deposit with energy 2 MeV, density 1, step length 2 at radius
1 cm is accumulated into the radial array as the raw energy deposit, which
differs from the claimed dose value
`energyDeposit / (density × stepLength × unitCrossSection) = 1`. -/
theorem c4_raw_energy_counterexample :
    ((1 : ℚ) * 1 = (Brachy.StepRecord.mk 2 1 0 0 1 2 (Brachy.Track.mk 0 none)).x ^ 2 +
        (Brachy.StepRecord.mk 2 1 0 0 1 2 (Brachy.Track.mk 0 none)).y ^ 2) ∧
      (Brachy.radialDeposit Brachy.initState
            (Brachy.StepRecord.mk 2 1 0 0 1 2 (Brachy.Track.mk 0 none)) 1).fPrimaryRadialDose 20 =
        Brachy.initState.fPrimaryRadialDose 20 +
          (Brachy.StepRecord.mk 2 1 0 0 1 2 (Brachy.Track.mk 0 none)).edep ∧
      (Brachy.StepRecord.mk 2 1 0 0 1 2 (Brachy.Track.mk 0 none)).edep ≠
        (Brachy.StepRecord.mk 2 1 0 0 1 2 (Brachy.Track.mk 0 none)).edep /
          ((Brachy.StepRecord.mk 2 1 0 0 1 2 (Brachy.Track.mk 0 none)).density *
            (Brachy.StepRecord.mk 2 1 0 0 1 2 (Brachy.Track.mk 0 none)).stepLength *
            SA.unitCrossSection) := by
  have hbin : ⌊(Brachy.fRadialBinWidth)⁻¹⌋ = (20 : ℤ) := by
    norm_num [Brachy.fRadialBinWidth]
  refine ⟨by norm_num, ?_, by norm_num [SA.unitCrossSection]⟩
  simp [Brachy.radialDeposit, Brachy.IsPrimaryContribution, hbin, Brachy.fMaxRadius,
    Brachy.fNRadialBins, Brachy.initState, Function.update]
  norm_num

/-- C4 (amended): the `SteppingAction` radial and angular projections
accumulate dose = `energyDeposit / (density × stepLength × unitCrossSection)`
per accepted deposit, while the Cartesian-voxel projection and the
`BrachySteppingAction` radial histogram both accumulate the raw deposited
energy, not divided by any mass estimate. -/
theorem c4_amended_normalization
    (st : SA.State) (r : SA.StepRecord) (bst : Brachy.State) (b : Brachy.StepRecord)
    (radius : ℚ)
    (he : 0 < r.edep)
    (hm : 0 < r.density * r.stepLength * SA.unitCrossSection)
    (hrb : 0 ≤ SA.GetRadialBin r.radius ∧ SA.GetRadialBin r.radius < (SA.fNRadialBins : ℤ))
    (hab : 0 ≤ SA.GetAngularBin r.angle ∧ SA.GetAngularBin r.angle < (SA.fNAngularBins : ℤ))
    (hbe : 0 < b.edep)
    (hbz : -(1/8 : ℚ) ≤ b.z ∧ b.z ≤ 1/8)
    (hbx : Brachy.f2DMin ≤ b.x ∧ b.x < Brachy.f2DMax)
    (hby : Brachy.f2DMin ≤ b.y ∧ b.y < Brachy.f2DMax)
    (_hrad : radius * radius = b.x ^ 2 + b.y ^ 2) (_hr0 : 0 ≤ radius)
    (hrin : radius ≤ Brachy.fMaxRadius)
    (hbbin : ⌊radius / Brachy.fRadialBinWidth⌋ < (Brachy.fNRadialBins : ℤ)) :
    (SA.ScoreDoseRadially st r (-1)).fRadialDose (SA.GetRadialBin r.radius).toNat =
        st.fRadialDose (SA.GetRadialBin r.radius).toNat +
          r.edep / (r.density * r.stepLength * SA.unitCrossSection) ∧
      (SA.ScoreDoseAngularly st r (-1)).fAngularDose (SA.GetRadialBin r.radius).toNat
          (SA.GetAngularBin r.angle).toNat =
        st.fAngularDose (SA.GetRadialBin r.radius).toNat (SA.GetAngularBin r.angle).toNat +
          r.edep / (r.density * r.stepLength * SA.unitCrossSection) ∧
      (Brachy.voxelDeposit bst b).fPrimary2DMap
            (⌊(b.x - Brachy.f2DMin) / Brachy.f2DBinWidth⌋).toNat
            (⌊(b.y - Brachy.f2DMin) / Brachy.f2DBinWidth⌋).toNat +
          (Brachy.voxelDeposit bst b).fSecondary2DMap
            (⌊(b.x - Brachy.f2DMin) / Brachy.f2DBinWidth⌋).toNat
            (⌊(b.y - Brachy.f2DMin) / Brachy.f2DBinWidth⌋).toNat =
        bst.fPrimary2DMap
            (⌊(b.x - Brachy.f2DMin) / Brachy.f2DBinWidth⌋).toNat
            (⌊(b.y - Brachy.f2DMin) / Brachy.f2DBinWidth⌋).toNat +
          bst.fSecondary2DMap
            (⌊(b.x - Brachy.f2DMin) / Brachy.f2DBinWidth⌋).toNat
            (⌊(b.y - Brachy.f2DMin) / Brachy.f2DBinWidth⌋).toNat + b.edep ∧
      (Brachy.radialDeposit bst b radius).fPrimaryRadialDose
            (⌊radius / Brachy.fRadialBinWidth⌋).toNat +
          (Brachy.radialDeposit bst b radius).fSecondaryRadialDose
            (⌊radius / Brachy.fRadialBinWidth⌋).toNat =
        bst.fPrimaryRadialDose (⌊radius / Brachy.fRadialBinWidth⌋).toNat +
          bst.fSecondaryRadialDose (⌊radius / Brachy.fRadialBinWidth⌋).toNat + b.edep := by
  have hassoc : r.density * r.stepLength * SA.unitCrossSection =
      r.density * (r.stepLength * SA.unitCrossSection) := mul_assoc _ _ _
  have hm' : 0 < r.density * (r.stepLength * SA.unitCrossSection) := hassoc ▸ hm
  have he' : ¬ r.edep ≤ 0 := not_le.mpr he
  have hz1 : (-1 / 8 : ℚ) ≤ b.z := by linarith [hbz.1]
  obtain ⟨hxb0, hxb1⟩ := voxelBin_in_range b.x hbx.1 hbx.2
  obtain ⟨hyb0, hyb1⟩ := voxelBin_in_range b.y hby.1 hby.2
  refine ⟨?_, ?_, ?_, ?_⟩
  · rw [hassoc]
    simp [SA.ScoreDoseRadially, he', hrb.1, hrb.2, hm']
  · rw [hassoc]
    simp [SA.ScoreDoseAngularly, he', hrb.1, hrb.2, hab.1, hab.2, hm', Modular2.upd2]
  · by_cases hp : Brachy.IsPrimaryContribution b.track
    · simp [Brachy.voxelDeposit, hbe, hbx.1, hbx.2, hby.1, hby.2,
        hxb0, hxb1, hyb0, hyb1, hp]
      split_ifs with hcond
      · simp [Modular2.upd2]
        ring
      · exact absurd ⟨by linarith [hbz.1], by linarith [hbz.2]⟩ hcond
    · simp [Brachy.voxelDeposit, hbe, hbx.1, hbx.2, hby.1, hby.2,
        hxb0, hxb1, hyb0, hyb1, hp]
      split_ifs with hcond
      · simp [Modular2.upd2]
        ring
      · exact absurd ⟨by linarith [hbz.1], by linarith [hbz.2]⟩ hcond
  · by_cases hp : Brachy.IsPrimaryContribution b.track
    · simp [Brachy.radialDeposit, hbe, hrin, hbbin, hp]
      split_ifs with hcond
      · simp [Function.update]
        ring
      · exact absurd ⟨by linarith [hbz.1], by linarith [hbz.2]⟩ hcond
    · simp [Brachy.radialDeposit, hbe, hrin, hbbin, hp]
      split_ifs with hcond
      · simp [Function.update]
        ring
      · exact absurd ⟨by linarith [hbz.1], by linarith [hbz.2]⟩ hcond

/-- Witness for the amended C4: a unit deposit at radius 2 cm (dose 1) for
`SteppingAction`, and a unit deposit at `(x, y) = (1, 0)` cm with step
length 2 for `BrachySteppingAction` (raw energy 1 accumulated in both the
voxel and the radial histograms). -/
theorem c4_amended_normalization_witness :
    (SA.ScoreDoseRadially SA.initState (SA.StepRecord.mk 1 2 0 1 1 0) (-1)).fRadialDose
        (SA.GetRadialBin (SA.StepRecord.mk 1 2 0 1 1 0).radius).toNat =
      SA.initState.fRadialDose (SA.GetRadialBin (SA.StepRecord.mk 1 2 0 1 1 0).radius).toNat +
        (SA.StepRecord.mk 1 2 0 1 1 0).edep /
          ((SA.StepRecord.mk 1 2 0 1 1 0).density *
            (SA.StepRecord.mk 1 2 0 1 1 0).stepLength * SA.unitCrossSection) ∧
    (SA.ScoreDoseAngularly SA.initState (SA.StepRecord.mk 1 2 0 1 1 0) (-1)).fAngularDose
        (SA.GetRadialBin (SA.StepRecord.mk 1 2 0 1 1 0).radius).toNat
        (SA.GetAngularBin (SA.StepRecord.mk 1 2 0 1 1 0).angle).toNat =
      SA.initState.fAngularDose (SA.GetRadialBin (SA.StepRecord.mk 1 2 0 1 1 0).radius).toNat
          (SA.GetAngularBin (SA.StepRecord.mk 1 2 0 1 1 0).angle).toNat +
        (SA.StepRecord.mk 1 2 0 1 1 0).edep /
          ((SA.StepRecord.mk 1 2 0 1 1 0).density *
            (SA.StepRecord.mk 1 2 0 1 1 0).stepLength * SA.unitCrossSection) ∧
    (Brachy.voxelDeposit Brachy.initState
          (Brachy.StepRecord.mk 1 1 0 0 1 2 (Brachy.Track.mk 0 none))).fPrimary2DMap
          (⌊((Brachy.StepRecord.mk 1 1 0 0 1 2 (Brachy.Track.mk 0 none)).x -
              Brachy.f2DMin) / Brachy.f2DBinWidth⌋).toNat
          (⌊((Brachy.StepRecord.mk 1 1 0 0 1 2 (Brachy.Track.mk 0 none)).y -
              Brachy.f2DMin) / Brachy.f2DBinWidth⌋).toNat +
        (Brachy.voxelDeposit Brachy.initState
            (Brachy.StepRecord.mk 1 1 0 0 1 2 (Brachy.Track.mk 0 none))).fSecondary2DMap
          (⌊((Brachy.StepRecord.mk 1 1 0 0 1 2 (Brachy.Track.mk 0 none)).x -
              Brachy.f2DMin) / Brachy.f2DBinWidth⌋).toNat
          (⌊((Brachy.StepRecord.mk 1 1 0 0 1 2 (Brachy.Track.mk 0 none)).y -
              Brachy.f2DMin) / Brachy.f2DBinWidth⌋).toNat =
      Brachy.initState.fPrimary2DMap
          (⌊((Brachy.StepRecord.mk 1 1 0 0 1 2 (Brachy.Track.mk 0 none)).x -
              Brachy.f2DMin) / Brachy.f2DBinWidth⌋).toNat
          (⌊((Brachy.StepRecord.mk 1 1 0 0 1 2 (Brachy.Track.mk 0 none)).y -
              Brachy.f2DMin) / Brachy.f2DBinWidth⌋).toNat +
        Brachy.initState.fSecondary2DMap
          (⌊((Brachy.StepRecord.mk 1 1 0 0 1 2 (Brachy.Track.mk 0 none)).x -
              Brachy.f2DMin) / Brachy.f2DBinWidth⌋).toNat
          (⌊((Brachy.StepRecord.mk 1 1 0 0 1 2 (Brachy.Track.mk 0 none)).y -
              Brachy.f2DMin) / Brachy.f2DBinWidth⌋).toNat +
        (Brachy.StepRecord.mk 1 1 0 0 1 2 (Brachy.Track.mk 0 none)).edep ∧
    (Brachy.radialDeposit Brachy.initState
          (Brachy.StepRecord.mk 1 1 0 0 1 2 (Brachy.Track.mk 0 none)) 1).fPrimaryRadialDose
          (⌊(1 : ℚ) / Brachy.fRadialBinWidth⌋).toNat +
        (Brachy.radialDeposit Brachy.initState
            (Brachy.StepRecord.mk 1 1 0 0 1 2 (Brachy.Track.mk 0 none)) 1).fSecondaryRadialDose
          (⌊(1 : ℚ) / Brachy.fRadialBinWidth⌋).toNat =
      Brachy.initState.fPrimaryRadialDose (⌊(1 : ℚ) / Brachy.fRadialBinWidth⌋).toNat +
        Brachy.initState.fSecondaryRadialDose (⌊(1 : ℚ) / Brachy.fRadialBinWidth⌋).toNat +
        (Brachy.StepRecord.mk 1 1 0 0 1 2 (Brachy.Track.mk 0 none)).edep :=
  c4_amended_normalization SA.initState (SA.StepRecord.mk 1 2 0 1 1 0) Brachy.initState
    (Brachy.StepRecord.mk 1 1 0 0 1 2 (Brachy.Track.mk 0 none)) 1
    (by norm_num) (by norm_num [SA.unitCrossSection])
    (by norm_num [SA.GetRadialBin, SA.fMaxRadius, SA.fNRadialBins])
    (by norm_num [SA.GetAngularBin, SA.fNAngularBins])
    (by norm_num) (by norm_num)
    (by norm_num [Brachy.f2DMin, Brachy.f2DMax])
    (by norm_num [Brachy.f2DMin, Brachy.f2DMax])
    (by norm_num) (by norm_num)
    (by norm_num [Brachy.fMaxRadius])
    (by norm_num [Brachy.fRadialBinWidth, Brachy.fNRadialBins])

/-- C8: The radial export produces exactly `fNRadialBins` rows, the row at
position `i` being the bin-center radius together with the selected
channel's dose and count for bin `i` — in particular, on the
zero-initialized state every row carries dose `0` and count `0`. -/
theorem c8_radial_export_complete (st : SA.State) (primary : Bool) :
    (SA.ExportRadialRows st primary).length = SA.fNRadialBins ∧
      (∀ i, i < SA.fNRadialBins →
        (SA.ExportRadialRows st primary)[i]? =
          some (((i : ℚ) + 1/2) * SA.fMaxRadius / (SA.fNRadialBins : ℚ),
                (if primary then st.fRadialDosePrimary i else st.fRadialDoseSecondary i),
                (if primary then st.fRadialCountsPrimary i else st.fRadialCountsSecondary i))) ∧
      (∀ i, i < SA.fNRadialBins →
        (SA.ExportRadialRows SA.initState primary)[i]? =
          some (((i : ℚ) + 1/2) * SA.fMaxRadius / (SA.fNRadialBins : ℚ), 0, 0)) := by
  refine ⟨by simp [SA.ExportRadialRows], ?_, ?_⟩
  · intro i hi
    simp [SA.ExportRadialRows, List.getElem?_range hi]
  · intro i hi
    simp [SA.ExportRadialRows, SA.initState, List.getElem?_range hi]

/-- Witness for C8 at bin 0 of the primary channel on the zero-initialized
state. -/
theorem c8_radial_export_complete_witness :
    (0 : ℕ) < SA.fNRadialBins ∧
      (SA.ExportRadialRows SA.initState true)[(0 : ℕ)]? =
        some ((((0 : ℕ) : ℚ) + 1/2) * SA.fMaxRadius / (SA.fNRadialBins : ℚ),
              (if true then SA.initState.fRadialDosePrimary 0
               else SA.initState.fRadialDoseSecondary 0),
              (if true then SA.initState.fRadialCountsPrimary 0
               else SA.initState.fRadialCountsSecondary 0)) :=
  ⟨by decide, (c8_radial_export_complete SA.initState true).2.1 0 (by decide)⟩

end Modular2
